import Mathlib

/-!
Verification of the go-interpreter repository (a tree-walking interpreter for
the Monkey language): a shallow embedding in Lean 4 of the token package, the
lexer, the Pratt parser, the runtime object model with chained environments,
and the recursive evaluator, followed by theorems settling the specification
claims.  Every definition mirrors the corresponding Go function; loops are
rendered as fueled recursion (the fuel bounds are always sufficient for the
concrete programs evaluated here, and the out-of-fuel outcome is kept distinct
from every real outcome).  Go runtime panics (integer division by zero, slice
index out of range, nil interface dereference) are modelled explicitly as a
distinct outcome, never conflated with the error values of the language.
-/

set_option maxRecDepth 4096

/-! ## token package (token/token.go) -/

inductive TokenType where
  | ILLEGAL | EOF
  | IDENTIFIER | INT | STRING
  | ASSIGN | PLUS | MINUS | BANG | ASTERISK | SLASH
  | LT | GT
  | COMMA | SEMICOLON
  | LPAREN | RPAREN | LBRACE | RBRACE | LBRACKET | RBRACKET
  | FUNCTION | LET | IF | ELSE | RETURN | TRUE | FALSE | EQ | NOT_EQ
deriving DecidableEq, Repr

/-- Mirrors (tt TokenType) String(), the objectTypeStrings-style lookup table
for token types used in parser diagnostics. -/
def tokenTypeString : TokenType → String
  | .ILLEGAL => "ILLEGAL"
  | .EOF => "EOF"
  | .IDENTIFIER => "IDENTIFIER"
  | .INT => "INT"
  | .STRING => "STRING"
  | .ASSIGN => "ASSIGN"
  | .PLUS => "PLUS"
  | .MINUS => "MINUS"
  | .BANG => "BANG"
  | .ASTERISK => "ASTERISK"
  | .SLASH => "SLASH"
  | .LT => "LT"
  | .GT => "GT"
  | .COMMA => "COMMA"
  | .SEMICOLON => "SEMICOLON"
  | .LPAREN => "LPAREN"
  | .RPAREN => "RPAREN"
  | .LBRACE => "LBRACE"
  | .RBRACE => "RBRACE"
  | .LBRACKET => "LBRACKET"
  | .RBRACKET => "RBRACKET"
  | .FUNCTION => "FUNCTION"
  | .LET => "LET"
  | .IF => "IF"
  | .ELSE => "ELSE"
  | .RETURN => "RETURN"
  | .TRUE => "TRUE"
  | .FALSE => "FALSE"
  | .EQ => "EQ"
  | .NOT_EQ => "NOT_EQ"

structure Token where
  type : TokenType
  literal : String
deriving DecidableEq, Repr

/-- token.New -/
def Token.new (tt : TokenType) (l : String) : Token := ⟨tt, l⟩

/-- token.LookupIdentifier: keyword table lookup, defaulting to IDENTIFIER. -/
def LookupIdentifier (identifier : String) : TokenType :=
  if identifier = "fn" then .FUNCTION
  else if identifier = "let" then .LET
  else if identifier = "if" then .IF
  else if identifier = "else" then .ELSE
  else if identifier = "return" then .RETURN
  else if identifier = "true" then .TRUE
  else if identifier = "false" then .FALSE
  else if identifier = "==" then .EQ
  else if identifier = "!=" then .NOT_EQ
  else .IDENTIFIER

/-! ## lexer package (lexer/lexer.go) -/

/-- The EOF sentinel character, `const EOF byte = 0` in the Go lexer. -/
def eofChar : Char := Char.ofNat 0

/-- lexer.Lexer: the input plus a cursor.  The Go field `input string` is a
byte string; the sources in this repository are ASCII, so a list of characters
is an exact model. -/
structure Lexer where
  input : List Char
  position : Nat
  readPosition : Nat
  ch : Char
deriving DecidableEq, Repr

/-- (l *Lexer) readChar -/
def Lexer.readChar (l : Lexer) : Lexer :=
  let c := if l.readPosition ≥ l.input.length then eofChar
           else l.input.getD l.readPosition eofChar
  { l with ch := c, position := l.readPosition, readPosition := l.readPosition + 1 }

/-- lexer.New: zeroed cursor followed by the initializing readChar. -/
def Lexer.new (input : String) : Lexer :=
  Lexer.readChar { input := input.toList, position := 0, readPosition := 0, ch := eofChar }

/-- (l *Lexer) peekChar -/
def Lexer.peekChar (l : Lexer) : Char :=
  if l.readPosition ≥ l.input.length then Char.ofNat 0
  else l.input.getD l.readPosition eofChar

/-- lexer.isLetter -/
def isLetter (ch : Char) : Bool :=
  (('a' ≤ ch) && (ch ≤ 'z')) || (('A' ≤ ch) && (ch ≤ 'Z'))

/-- lexer.isDigit -/
def isDigit (ch : Char) : Bool := ('0' ≤ ch) && (ch ≤ '9')

/-- lexer.isValidInIdentifier -/
def isValidInIdentifier (ch : Char) : Bool :=
  isLetter ch || ch = '_' || isDigit ch

/-- The whitespace loop of (l *Lexer) skipWhitespace, with fuel; every
iteration advances the cursor, and the cursor reaches the EOF character after
at most input.length steps, so fuel input.length + 1 is always enough. -/
def Lexer.skipWhitespaceLoop : Nat → Lexer → Lexer
  | 0, l => l
  | fuel+1, l =>
    if l.ch = ' ' ∨ l.ch = '\t' ∨ l.ch = '\n' ∨ l.ch = '\r' then
      Lexer.skipWhitespaceLoop fuel l.readChar
    else l

/-- (l *Lexer) skipWhitespace -/
def Lexer.skipWhitespace (l : Lexer) : Lexer :=
  Lexer.skipWhitespaceLoop (l.input.length + 1) l

/-- The scan loop shared by readIdentifier and readNumber: advance while the
current character satisfies the predicate. -/
def Lexer.scanWhile : Nat → (Char → Bool) → Lexer → Lexer
  | 0, _, l => l
  | fuel+1, pred, l =>
    if pred l.ch then Lexer.scanWhile fuel pred l.readChar else l

/-- (l *Lexer) readIdentifier: returns input[initialPos:l.position] after
scanning identifier characters. -/
def Lexer.readIdentifier (l : Lexer) : String × Lexer :=
  let initialPos := l.position
  let l1 := Lexer.scanWhile (l.input.length + 1) isValidInIdentifier l
  (String.mk ((l1.input.drop initialPos).take (l1.position - initialPos)), l1)

/-- (l *Lexer) readNumber -/
def Lexer.readNumber (l : Lexer) : String × Lexer :=
  let initialPos := l.position
  let l1 := Lexer.scanWhile (l.input.length + 1) isDigit l
  (String.mk ((l1.input.drop initialPos).take (l1.position - initialPos)), l1)

/-- The loop of (l *Lexer) readString: stop at a closing quote, or fail by
hitting the EOF character right after a readChar. -/
def Lexer.readStringLoop : Nat → Lexer → Lexer × Bool
  | 0, l => (l, false)
  | fuel+1, l =>
    if l.ch = '"' then (l, true)
    else
      let l1 := l.readChar
      if l1.ch = eofChar then (l1, false)
      else Lexer.readStringLoop fuel l1

/-- (l *Lexer) readString: returns the scanned string and ok; ok is false when
no closing quote was found before end of input. -/
def Lexer.readString (l : Lexer) : String × Bool × Lexer :=
  let l1 := l.readChar
  let start := l1.position
  let (l2, ok) := Lexer.readStringLoop (l.input.length + 2) l1
  (if ok then String.mk ((l2.input.drop start).take (l2.position - start)) else "",
   ok, l2)

/-- (l *Lexer) NextToken: the full dispatch on the current character.  The Go
switch assigns a token and then performs a final readChar, except for the
identifier and number branches which return early. -/
def Lexer.NextToken (l0 : Lexer) : Token × Lexer :=
  let l := l0.skipWhitespace
  if l.ch = '=' then
    if l.peekChar = '=' then
      let first := l.ch
      let l1 := l.readChar
      (Token.new .EQ (String.mk [first, l1.ch]), l1.readChar)
    else (Token.new .ASSIGN (String.mk [l.ch]), l.readChar)
  else if l.ch = '+' then (Token.new .PLUS (String.mk [l.ch]), l.readChar)
  else if l.ch = '-' then (Token.new .MINUS (String.mk [l.ch]), l.readChar)
  else if l.ch = '!' then
    if l.peekChar = '=' then
      let first := l.ch
      let l1 := l.readChar
      (Token.new .NOT_EQ (String.mk [first, l1.ch]), l1.readChar)
    else (Token.new .BANG (String.mk [l.ch]), l.readChar)
  else if l.ch = '/' then (Token.new .SLASH (String.mk [l.ch]), l.readChar)
  else if l.ch = '*' then (Token.new .ASTERISK (String.mk [l.ch]), l.readChar)
  else if l.ch = '<' then (Token.new .LT (String.mk [l.ch]), l.readChar)
  else if l.ch = '>' then (Token.new .GT (String.mk [l.ch]), l.readChar)
  else if l.ch = ',' then (Token.new .COMMA (String.mk [l.ch]), l.readChar)
  else if l.ch = ';' then (Token.new .SEMICOLON (String.mk [l.ch]), l.readChar)
  else if l.ch = '(' then (Token.new .LPAREN (String.mk [l.ch]), l.readChar)
  else if l.ch = ')' then (Token.new .RPAREN (String.mk [l.ch]), l.readChar)
  else if l.ch = '{' then (Token.new .LBRACE (String.mk [l.ch]), l.readChar)
  else if l.ch = '}' then (Token.new .RBRACE (String.mk [l.ch]), l.readChar)
  else if l.ch = '[' then (Token.new .LBRACKET (String.mk [l.ch]), l.readChar)
  else if l.ch = ']' then (Token.new .RBRACKET (String.mk [l.ch]), l.readChar)
  else if l.ch = '"' then
    let (s, ok, l1) := l.readString
    if ok then (Token.new .STRING s, l1.readChar)
    else (Token.new .EOF "", l1.readChar)
  else if l.ch = eofChar then (Token.new .EOF "", l.readChar)
  else if isLetter l.ch then
    let (lit, l1) := l.readIdentifier
    (Token.new (LookupIdentifier lit) lit, l1)
  else if isDigit l.ch then
    let (num, l1) := l.readNumber
    (Token.new .INT num, l1)
  else (Token.new .ILLEGAL (String.mk [l.ch]), l.readChar)

/-- Collects the token stream up to and including the first EOF token; every
token other than the final EOF consumes at least one input character, so fuel
input.length + 1 always reaches EOF.  The Go parser pulls tokens lazily, and
NextToken keeps yielding EOF after the end, so the pre-computed list plus
EOF padding (in the parser below) is an exact model. -/
def tokenizeLoop : Nat → Lexer → List Token
  | 0, _ => []
  | fuel+1, l =>
    let (t, l1) := Lexer.NextToken l
    if t.type = .EOF then [t] else t :: tokenizeLoop fuel l1

/-- Token stream of a source string. -/
def tokenize (input : String) : List Token :=
  tokenizeLoop (input.length + 1) (Lexer.new input)

example : tokenize "let x = 5;" =
    [Token.new .LET "let", Token.new .IDENTIFIER "x", Token.new .ASSIGN "=",
     Token.new .INT "5", Token.new .SEMICOLON ";", Token.new .EOF ""] := by rfl

example : tokenize "1 == true" =
    [Token.new .INT "1", Token.new .EQ "==", Token.new .TRUE "true",
     Token.new .EOF ""] := by rfl

/-! ## ast package (ast/ast.go, the variant with booleans, conditionals,
function literals and calls) -/

/-- ast.Identifier -/
structure Identifier where
  token : Token
  value : String
deriving DecidableEq, Repr

/-- The AST node types.  Go represents nodes through the ast.Node interface
with nil-able pointer fields; a single inductive with Option for every
nil-able child is the direct model.  The constructors correspond one to one
to the structs of ast.go (Program, LetStatement, ReturnStatement,
ExpressionStatement, BlockStatement, Identifier-as-expression,
IntegerLiteral, Boolean, PrefixExpression, InfixExpression, IfExpression,
FunctionLiteral, CallExpression). -/
inductive Node where
  | program (statements : List Node)
  | letStmt (token : Token) (name : Identifier) (value : Option Node)
  | returnStmt (token : Token) (value : Option Node)
  | exprStmt (token : Token) (expression : Option Node)
  | block (token : Token) (statements : List Node)
  | identExpr (token : Token) (value : String)
  | intLit (token : Token) (value : Int)
  | boolLit (token : Token) (value : Bool)
  | prefixExpr (token : Token) (operator : String) (right : Option Node)
  | infixExpr (token : Token) (left : Option Node) (operator : String) (right : Option Node)
  | ifExpr (token : Token) (condition : Option Node) (consequence : Option Node)
      (alternative : Option Node)
  | funcLit (token : Token) (parameters : List Identifier) (body : Option Node)
  | callExpr (token : Token) (function : Option Node) (arguments : List (Option Node))

/-- Number of top-level statements of a program node (used to compare the
shapes of two parses). -/
def Node.numStatements : Node → Nat
  | .program stmts => stmts.length
  | _ => 0

/-! The String() methods of ast.go.  Rendering recurses through the tree; the
fuel argument is decremented on every recursive call and is always sufficient
for the trees printed in this development.  Where a parent accesses a nil
child without a nil check, the Go code would dereference a nil interface and
crash; those branches render as the empty string here and are never reached by
the programs printed in this file (the LetStatement, ReturnStatement and
ExpressionStatement methods do check their child for nil, exactly as in Go). -/

mutual

/-- Node.String() of ast.go, over an optional (possibly nil) node. -/
def nodeString : Nat → Option Node → String
  | 0, _ => ""
  | _+1, none => ""
  | fuel+1, some n =>
    match n with
    | .program stmts => nodesString fuel stmts
    | .letStmt tok name value =>
      tok.literal ++ " " ++ name.value ++ " = " ++
        (match value with
         | some v => nodeString fuel (some v)
         | none => "") ++ ";"
    | .returnStmt tok value =>
      tok.literal ++ " " ++
        (match value with
         | some v => nodeString fuel (some v)
         | none => "") ++ ";"
    | .exprStmt _ e =>
      (match e with
       | some v => nodeString fuel (some v)
       | none => "")
    | .block _ stmts => "\x7b" ++ nodesString fuel stmts ++ "\x7d"
    | .identExpr _ v => v
    | .intLit tok _ => tok.literal
    | .boolLit tok _ => tok.literal
    | .prefixExpr _ operator right =>
      "(" ++ operator ++ nodeString fuel right ++ ")"
    | .infixExpr _ left operator right =>
      "(" ++ nodeString fuel left ++ " " ++ operator ++ " " ++ nodeString fuel right ++ ")"
    | .ifExpr _ condition consequence alternative =>
      "if " ++ nodeString fuel condition ++ " " ++ nodeString fuel consequence ++
        (match alternative with
         | some a => "else " ++ nodeString fuel (some a)
         | none => "")
    | .funcLit _ parameters body =>
      "fn(" ++ String.intercalate ", " (parameters.map (fun p => p.value)) ++ ")" ++
        nodeString fuel body
    | .callExpr _ f arguments =>
      nodeString fuel f ++ "(" ++ nodeOptListString fuel arguments ++ ")"

/-- Concatenation of statement strings (Program.String and the body of
BlockStatement.String). -/
def nodesString : Nat → List Node → String
  | 0, _ => ""
  | _+1, [] => ""
  | fuel+1, s :: rest => nodeString fuel (some s) ++ nodesString fuel rest

/-- strings.Join(..., ", ") over rendered call arguments. -/
def nodeOptListString : Nat → List (Option Node) → String
  | 0, _ => ""
  | _+1, [] => ""
  | fuel+1, [a] => nodeString fuel a
  | fuel+1, a :: rest => nodeString fuel a ++ ", " ++ nodeOptListString fuel rest

end

/-! ## parser package (parser/parser.go) -/

/-- The operator precedence levels; the Go iota constant named PREFIX is
rendered here as PREFIXLEVEL. -/
inductive Precedence where
  | LOWEST | EQUALS | LESSGREATER | SUM | PRODUCT | PREFIXLEVEL | CALL
deriving DecidableEq, Repr

/-- Numeric value of a precedence (the iota value), for the > comparison. -/
def Precedence.val : Precedence → Nat
  | .LOWEST => 0
  | .EQUALS => 1
  | .LESSGREATER => 2
  | .SUM => 3
  | .PRODUCT => 4
  | .PREFIXLEVEL => 5
  | .CALL => 6

/-- The precedences table. -/
def precedences : TokenType → Option Precedence
  | .EQ => some .EQUALS
  | .NOT_EQ => some .EQUALS
  | .LT => some .LESSGREATER
  | .GT => some .LESSGREATER
  | .PLUS => some .SUM
  | .MINUS => some .SUM
  | .SLASH => some .PRODUCT
  | .ASTERISK => some .PRODUCT
  | .LPAREN => some .CALL
  | _ => none

/-- parser.Parser: the unread token stream stands for the lexer the parser
pulls from (NextToken yields EOF forever once the stream is exhausted),
plus currToken, peekToken and the accumulated error list. -/
structure ParserState where
  rest : List Token
  currToken : Token
  peekToken : Token
  errors : List String
deriving DecidableEq, Repr

/-- The token every pull past the end of the stream returns. -/
def eofToken : Token := Token.new .EOF ""

/-- The Go zero value of token.Token: TokenType(0) is ILLEGAL, literal "". -/
def zeroToken : Token := Token.new .ILLEGAL ""

/-- (p *Parser) nextToken -/
def nextTokenP (p : ParserState) : ParserState :=
  { p with currToken := p.peekToken,
           peekToken := p.rest.headD eofToken,
           rest := p.rest.tail }

/-- parser.New: both cursor tokens start as zero values and two nextToken
calls populate them. -/
def Parser.new (toks : List Token) : ParserState :=
  nextTokenP (nextTokenP
    { rest := toks, currToken := zeroToken, peekToken := zeroToken, errors := [] })

/-- (p *Parser) currTokenIs -/
def currTokenIs (tt : TokenType) (p : ParserState) : Bool := p.currToken.type = tt

/-- (p *Parser) peekTokenIs -/
def peekTokenIs (tt : TokenType) (p : ParserState) : Bool := p.peekToken.type = tt

/-- (p *Parser) peekError -/
def peekError (expected : TokenType) (p : ParserState) : ParserState :=
  { p with errors := p.errors ++
      ["Expected next token to be " ++ tokenTypeString expected ++
       ", got " ++ tokenTypeString p.peekToken.type] }

/-- (p *Parser) noPrefixParseFnError -/
def noPrefixParseFnError (tt : TokenType) (p : ParserState) : ParserState :=
  { p with errors := p.errors ++ ["No prefix parse function for " ++ tokenTypeString tt] }

/-- (p *Parser) expectPeek: advance on a match, record a diagnostic otherwise. -/
def expectPeek (tt : TokenType) (p : ParserState) : Bool × ParserState :=
  if peekTokenIs tt p then (true, nextTokenP p)
  else (false, peekError tt p)

/-- (p *Parser) currPrecedence -/
def currPrecedence (p : ParserState) : Precedence :=
  (precedences p.currToken.type).getD .LOWEST

/-- (p *Parser) peekPrecedence -/
def peekPrecedence (p : ParserState) : Precedence :=
  (precedences p.peekToken.type).getD .LOWEST

/-- The token types with a registered prefix parse function (parser.New). -/
def hasPrefixFn : TokenType → Bool
  | .IDENTIFIER | .INT | .BANG | .MINUS | .TRUE | .FALSE | .LPAREN | .IF | .FUNCTION => true
  | _ => false

/-- The token types with a registered infix parse function (parser.New). -/
def hasInfixFn : TokenType → Bool
  | .PLUS | .MINUS | .SLASH | .ASTERISK | .EQ | .NOT_EQ | .LT | .GT | .LPAREN => true
  | _ => false

/-- (p *Parser) parseIdentifier -/
def parseIdentifier (p : ParserState) : Node :=
  .identExpr p.currToken p.currToken.literal

/-- Decimal value of a digit list (most significant first). -/
def digitsToNat : List Char → Nat → Nat
  | [], acc => acc
  | c :: rest, acc => digitsToNat rest (acc * 10 + (c.toNat - '0'.toNat))

/-- strconv.ParseInt(s, 10, 64) restricted to the strings the lexer produces
(maximal digit runs): the parse fails only on empty, non-digit or
out-of-range input. -/
def parseInt64 (s : String) : Option Int :=
  let cs := s.toList
  if cs ≠ [] ∧ cs.all isDigit then
    let n := digitsToNat cs 0
    if n ≤ 2 ^ 63 - 1 then some (Int.ofNat n) else none
  else none

/-- (p *Parser) parseIntegerLiteral -/
def parseIntegerLiteral (p : ParserState) : ParserState × Option Node :=
  match parseInt64 p.currToken.literal with
  | some value => (p, some (.intLit p.currToken value))
  | none =>
    ({ p with errors := p.errors ++
        ["Could not parse \"" ++ p.currToken.literal ++ "\" as an integer"] }, none)

/-- (p *Parser) parseBoolean -/
def parseBoolean (p : ParserState) : Node :=
  .boolLit p.currToken (currTokenIs .TRUE p)

/-- The comma loop of (p *Parser) parseFunctionParameters; each iteration
consumes two tokens, so the length of the remaining stream bounds it. -/
def parseParamsLoop : Nat → List Identifier → ParserState → ParserState × List Identifier
  | 0, identifiers, p => (p, identifiers)
  | fuel+1, identifiers, p =>
    if peekTokenIs .COMMA p then
      let p1 := nextTokenP (nextTokenP p)
      parseParamsLoop fuel
        (identifiers ++ [⟨p1.currToken, p1.currToken.literal⟩]) p1
    else (p, identifiers)

/-- (p *Parser) parseFunctionParameters: note that the token in parameter
position is converted to an Identifier from its literal text without checking
that it is an IDENTIFIER token.  A failed closing-parenthesis expectation
returns the Go nil slice, modelled as the empty list (its only uses are
iteration and length). -/
def parseFunctionParameters (p : ParserState) : ParserState × List Identifier :=
  if peekTokenIs .RPAREN p then (nextTokenP p, [])
  else
    let p1 := nextTokenP p
    let first : Identifier := ⟨p1.currToken, p1.currToken.literal⟩
    let (p2, identifiers) := parseParamsLoop (p.rest.length + 2) [first] p1
    match expectPeek .RPAREN p2 with
    | (true, p3) => (p3, identifiers)
    | (false, p3) => (p3, [])

/-! ## object package (object/object.go and object/environment.go) -/

/-- object.ObjectType (the full enumeration of object.go). -/
inductive ObjectType where
  | INTEGER_OBJ | STRING_OBJ | ARRAY_OBJ | HASH_OBJ | BOOLEAN_OBJ | NULL_OBJ
  | RETURN_VALUE_OBJ | FUNCTION_OBJ | BUILTIN_OBJ | ERROR_OBJ
deriving DecidableEq, Repr

/-- (o ObjectType) String() via the objectTypeStrings map. -/
def objectTypeString : ObjectType → String
  | .INTEGER_OBJ => "INTEGER"
  | .STRING_OBJ => "STRING"
  | .ARRAY_OBJ => "ARRAY"
  | .HASH_OBJ => "HASH"
  | .BOOLEAN_OBJ => "BOOLEAN"
  | .NULL_OBJ => "NULL"
  | .RETURN_VALUE_OBJ => "RETURN_VALUE"
  | .FUNCTION_OBJ => "FUNCTION"
  | .BUILTIN_OBJ => "BUILTIN"
  | .ERROR_OBJ => "ERROR"

/-- The runtime values (object.Object).  Environments live in a heap and are
named by index, so a Function value carries the index of its captured
defining environment; it also carries an allocation identifier that models
the pointer identity of the Go object (used by the == and != fallback, which
compares interface values by identity).  The ARRAY and HASH variants of
object.go are omitted: no branch of this evaluator ever constructs or
consumes them.  A ReturnValue may wrap the Go nil result of its inner
evaluation, hence the Option. -/
inductive Obj where
  | integer (value : Int)
  | stringObj (value : String)
  | boolean (value : Bool)
  | null
  | returnValue (value : Option Obj)
  | function (allocId : Nat) (parameters : List Identifier) (body : Option Node) (env : Nat)
  | builtin (name : String)
  | errorObj (message : String)

/-- (o Object) Type() -/
def Obj.type : Obj → ObjectType
  | .integer _ => .INTEGER_OBJ
  | .stringObj _ => .STRING_OBJ
  | .boolean _ => .BOOLEAN_OBJ
  | .null => .NULL_OBJ
  | .returnValue _ => .RETURN_VALUE_OBJ
  | .function _ _ _ _ => .FUNCTION_OBJ
  | .builtin _ => .BUILTIN_OBJ
  | .errorObj _ => .ERROR_OBJ

/-- object.Environment: a mutable name-to-value map plus an optional outer
reference.  The map is modelled as an insertion-ordered association list
(lookup takes the unique binding of a name; Set overwrites it in place).
A stored value may be the Go nil object, hence Option Obj. -/
structure Environment where
  store : List (String × Option Obj)
  outer : Option Nat

/-- The heap of environments: Go aliases environments through pointers, so
environments are kept in an indexed list and referenced by index.  nextFnId
numbers Function allocations to model their pointer identity. -/
structure Heap where
  envs : List Environment
  nextFnId : Nat

/-- Lookup in the store map of a single environment. -/
def storeGet (store : List (String × Option Obj)) (name : String) : Option (Option Obj) :=
  match store with
  | [] => none
  | (k, v) :: rest => if k = name then some v else storeGet rest name

/-- Overwriting update of the store map of a single environment. -/
def storeSet (store : List (String × Option Obj)) (name : String) (val : Option Obj) :
    List (String × Option Obj) :=
  match store with
  | [] => [(name, val)]
  | (k, v) :: rest => if k = name then (name, val) :: rest else (k, v) :: storeSet rest name val

/-- (e *Environment) Get, walking the outer chain.  The fuel bounds the chain
length; the heap only ever contains environments whose outer link was
allocated earlier, so a chain is never longer than the heap and fuel
heap-size + 1 is always sufficient. -/
def envGetAux : Nat → Heap → Nat → String → Option (Option Obj)
  | 0, _, _, _ => none
  | fuel+1, h, ref, name =>
    match h.envs.get? ref with
    | none => none
    | some e =>
      match storeGet e.store name with
      | some v => some v
      | none =>
        match e.outer with
        | some o => envGetAux fuel h o name
        | none => none

/-- (e *Environment) Get: some v when found (v may be the Go nil), none when
the name is absent from the whole chain. -/
def envGet (h : Heap) (ref : Nat) (name : String) : Option (Option Obj) :=
  envGetAux (h.envs.length + 1) h ref name

/-- (e *Environment) Set on the environment named by ref. -/
def envSet (h : Heap) (ref : Nat) (name : String) (val : Option Obj) : Heap :=
  match h.envs.get? ref with
  | none => h
  | some e => { h with envs := h.envs.set ref { e with store := storeSet e.store name val } }

/-- object.NewEnvironment: allocates a fresh environment with no outer link
and returns its reference. -/
def NewEnvironment (h : Heap) : Heap × Nat :=
  ({ h with envs := h.envs ++ [{ store := [], outer := none }] }, h.envs.length)

/-- object.NewEnclosedEnvironment: a fresh environment whose outer link is the
given reference. -/
def NewEnclosedEnvironment (h : Heap) (outer : Nat) : Heap × Nat :=
  ({ h with envs := h.envs ++ [{ store := [], outer := some outer }] }, h.envs.length)

/-! ## evaluator package (evaluator/evaluator.go) -/

/-- Result of one call to Eval.  ok carries the returned object, with none for
the Go nil result (the LetStatement case and unmatched nodes return nil).
panicked models a Go runtime panic: the process dies, nothing is returned.
noFuel only reports that the fuel given to the fueled recursion ran out; it is
distinct from every behavior of the Go code. -/
inductive Outcome where
  | ok (result : Option Obj)
  | panicked (message : String)
  | noFuel

/-- Whether an outcome is a normal return. -/
def Outcome.isOk : Outcome → Bool
  | .ok _ => true
  | _ => false

/-- The Go runtime message for integer division by zero. -/
def divideByZeroPanic : String := "runtime error: integer divide by zero"

/-- The Go runtime message for a slice index out of range. -/
def indexOutOfRangePanic : String := "runtime error: index out of range"

/-- The Go runtime message for a method call on a nil interface value. -/
def nilPointerPanic : String :=
  "runtime error: invalid memory address or nil pointer dereference"

/-- The Go runtime message for a failed interface type assertion. -/
def typeAssertionPanic : String := "interface conversion: unexpected dynamic type"

/-- evaluator.newError (the formatted message is passed in already built). -/
def newError (message : String) : Obj := .errorObj message

/-- evaluator.isError: o != nil && o.Type() == ERROR_OBJ. -/
def isError : Option Obj → Bool
  | some (.errorObj _) => true
  | _ => false

/-- evaluator.nativeToBooleanObject: returns the TRUE or FALSE singleton;
since exactly one boolean object per truth value exists at runtime, the
singletons are identified with the two boolean values. -/
def nativeToBooleanObject (input : Bool) : Obj := .boolean input

/-- evaluator.isTruthy: the switch compares the operand against the NULL,
TRUE and FALSE singletons by identity and everything else (a nil operand
included) falls to the default true branch.  Every Boolean object in a run is
one of the two singletons and every Null is NULL, so matching on the
constructors is the identity comparison. -/
def isTruthy : Option Obj → Bool
  | some .null => false
  | some (.boolean b) => b
  | _ => true

/-- The Go interface comparison left == right of evalInfixExpression,
restricted to the operand shapes that can actually reach it: the two boolean
singletons and NULL compare by constructor (they are interned), two Function
or two Builtin objects compare by allocation identity, and operands of
different dynamic types are never equal.  A pair of integers never reaches
this comparison (the integer case of evalInfixExpression fires first), and
string, error and return-signal objects never occur as infix operands in this
evaluator. -/
def goIdentityEq : Obj → Obj → Bool
  | .boolean a, .boolean b => a = b
  | .null, .null => true
  | .function i _ _ _, .function j _ _ _ => i = j
  | .builtin a, .builtin b => a = b
  | _, _ => false

/-- evaluator.evalBangOperatorExpression -/
def evalBangOperatorExpression (right : Option Obj) : Obj :=
  nativeToBooleanObject (!(isTruthy right))

/-- Wrapping of a signed 64-bit integer operation, the arithmetic of Go
int64. -/
def wrap64 (n : Int) : Int :=
  Int.emod (n + 2 ^ 63) (2 ^ 64) - 2 ^ 63

/-- evaluator.evalMinusPrefixOperatorExpression; calling Type() on a nil
operand would crash in Go. -/
def evalMinusPrefixOperatorExpression (right : Option Obj) : Outcome :=
  match right with
  | none => .panicked nilPointerPanic
  | some (.integer value) => .ok (some (.integer (wrap64 (-value))))
  | some r => .ok (some (newError ("unknown operator: -" ++ objectTypeString r.type)))

/-- evaluator.evalPrefixExpression -/
def evalPrefixExpression (operator : String) (right : Option Obj) : Outcome :=
  if operator = "!" then .ok (some (evalBangOperatorExpression right))
  else if operator = "-" then evalMinusPrefixOperatorExpression right
  else
    match right with
    | none => .panicked nilPointerPanic
    | some r => .ok (some (newError ("unknown operator: " ++ operator ++ objectTypeString r.type)))

/-- evaluator.evalIntegerInfixExpression.  Both operands were checked to have
INTEGER type, so the Go type assertions cannot fail there; the division branch
has no zero-divisor guard and Go panics on a zero divisor.  Division truncates
toward zero (Go semantics). -/
def evalIntegerInfixExpression (operator : String) (left right : Obj) : Outcome :=
  match left, right with
  | .integer leftVal, .integer rightVal =>
    if operator = "+" then .ok (some (.integer (wrap64 (leftVal + rightVal))))
    else if operator = "-" then .ok (some (.integer (wrap64 (leftVal - rightVal))))
    else if operator = "*" then .ok (some (.integer (wrap64 (leftVal * rightVal))))
    else if operator = "/" then
      if rightVal = 0 then .panicked divideByZeroPanic
      else .ok (some (.integer (wrap64 (Int.tdiv leftVal rightVal))))
    else if operator = "<" then .ok (some (nativeToBooleanObject (decide (leftVal < rightVal))))
    else if operator = ">" then .ok (some (nativeToBooleanObject (decide (rightVal < leftVal))))
    else if operator = "==" then .ok (some (nativeToBooleanObject (leftVal = rightVal)))
    else if operator = "!=" then .ok (some (nativeToBooleanObject (!(leftVal = rightVal : Bool))))
    else
      .ok (some (newError ("unknown operator: " ++ objectTypeString left.type ++ " " ++
        operator ++ " " ++ objectTypeString right.type)))
  | _, _ => .panicked typeAssertionPanic

/-- evaluator.evalInfixExpression: the switch tries, in order, the two-integer
case, the == and != identity comparisons, the type-mismatch error and the
unknown-operator error.  The case guards call Type() on the operands in that
order, so a nil operand crashes at the first guard that dereferences it; a
nil operand that only reaches the identity comparison compares unequal to any
non-nil interface value, as in Go. -/
def evalInfixExpression (operator : String) (left right : Option Obj) : Outcome :=
  match left, right with
  | some l, some r =>
    if l.type = .INTEGER_OBJ ∧ r.type = .INTEGER_OBJ then
      evalIntegerInfixExpression operator l r
    else if operator = "==" then .ok (some (nativeToBooleanObject (goIdentityEq l r)))
    else if operator = "!=" then .ok (some (nativeToBooleanObject (!goIdentityEq l r)))
    else if l.type ≠ r.type then
      .ok (some (newError ("type mismatch: " ++ objectTypeString l.type ++ " " ++
        operator ++ " " ++ objectTypeString r.type)))
    else
      .ok (some (newError ("unknown operator: " ++ objectTypeString l.type ++ " " ++
        operator ++ " " ++ objectTypeString r.type)))
  | some l, none =>
    if l.type = .INTEGER_OBJ then .panicked nilPointerPanic
    else if operator = "==" then .ok (some (nativeToBooleanObject false))
    else if operator = "!=" then .ok (some (nativeToBooleanObject true))
    else .panicked nilPointerPanic
  | none, _ => .panicked nilPointerPanic

/-- evaluator.evalIdentifier: environment lookup only; there is no fallback to
the builtins table in this evaluator. -/
def evalIdentifier (name : String) (env : Nat) (h : Heap) : Option Obj :=
  match envGet h env name with
  | some val => val
  | none => some (newError ("identifier not found: " ++ name))

/-- evaluator.unwrapReturnValue -/
def unwrapReturnValue : Option Obj → Option Obj
  | some (.returnValue v) => v
  | o => o

/-- The parameter-binding loop of evaluator.extendFunctionEnv: env.Set of
args[idx] for each parameter in order.  Indexing args beyond its length is the
Go out-of-range panic, reported in the second component. -/
def bindParams (params : List Identifier) (args : List (Option Obj)) (idx : Nat)
    (env : Nat) (h : Heap) : Heap × Option String :=
  match params with
  | [] => (h, none)
  | p :: ps =>
    match args[idx]? with
    | none => (h, some indexOutOfRangePanic)
    | some a => bindParams ps args (idx + 1) env (envSet h env p.value a)

/-- evaluator.extendFunctionEnv: a fresh environment enclosed by the captured
environment of the function, with the arguments bound positionally.  The
second component reports the Go panic raised when there are fewer arguments
than parameters. -/
def extendFunctionEnv (fnEnv : Nat) (params : List Identifier)
    (args : List (Option Obj)) (h : Heap) : Heap × Nat × Option String :=
  let (h1, env) := NewEnclosedEnvironment h fnEnv
  let (h2, failure) := bindParams params args 0 env h1
  (h2, env, failure)

/-- Result of evaluator.evalExpressions: a slice of evaluated arguments
(a single error value when one of them evaluated to an error, exactly the Go
early return of []Object\x7bevaluated\x7d), or an aborting outcome (panic or
fuel exhaustion) from a nested evaluation. -/
inductive ExprsResult where
  | objs (values : List (Option Obj))
  | aborted (outcome : Outcome)

/-! The recursive evaluator.  The Go functions Eval, evalProgram,
evalBlockStatement, evalIfExpression, evalExpressions and applyFunction call
each other; the interpreted language has unbounded recursion (the host call
stack in Go), so the cluster carries fuel, decremented at every call.  The
statement loops of evalProgram and evalBlockStatement carry their running
result variable as an accumulator argument. -/

mutual

/-- evaluator.Eval: dispatch on the dynamic node type.  A nil node matches no
case and falls through to return nil, as does the LetStatement case (its
switch case body does not return). -/
def Eval : Nat → Option Node → Nat → Heap → Heap × Outcome
  | 0, _, _, h => (h, .noFuel)
  | fuel+1, node, env, h =>
    match node with
    | some (.program statements) => evalProgram fuel statements env none h
    | some (.exprStmt _ expression) => Eval fuel expression env h
    | some (.block _ statements) => evalBlockStatement fuel statements env none h
    | some (.returnStmt _ value) =>
      match Eval fuel value env h with
      | (h1, .ok val) =>
        if isError val then (h1, .ok val)
        else (h1, .ok (some (.returnValue val)))
      | other => other
    | some (.letStmt _ name value) =>
      match Eval fuel value env h with
      | (h1, .ok val) =>
        if isError val then (h1, .ok val)
        else (envSet h1 env name.value val, .ok none)
      | other => other
    | some (.intLit _ value) => (h, .ok (some (.integer value)))
    | some (.boolLit _ value) => (h, .ok (some (nativeToBooleanObject value)))
    | some (.identExpr _ value) => (h, .ok (evalIdentifier value env h))
    | some (.prefixExpr _ operator right) =>
      match Eval fuel right env h with
      | (h1, .ok r) =>
        if isError r then (h1, .ok r)
        else (h1, evalPrefixExpression operator r)
      | other => other
    | some (.infixExpr _ left operator right) =>
      match Eval fuel left env h with
      | (h1, .ok l) =>
        if isError l then (h1, .ok l)
        else
          match Eval fuel right env h1 with
          | (h2, .ok r) =>
            if isError r then (h2, .ok r)
            else (h2, evalInfixExpression operator l r)
          | other => other
      | other => other
    | some (.ifExpr _ condition consequence alternative) =>
      evalIfExpression fuel condition consequence alternative env h
    | some (.funcLit _ parameters body) =>
      ({ h with nextFnId := h.nextFnId + 1 },
       .ok (some (.function h.nextFnId parameters body env)))
    | some (.callExpr _ f arguments) =>
      match Eval fuel f env h with
      | (h1, .ok fnVal) =>
        if isError fnVal then (h1, .ok fnVal)
        else
          match evalExpressions fuel arguments env [] h1 with
          | (h2, .objs args) =>
            if args.length = 1 ∧ isError (args.headD none) then (h2, .ok (args.headD none))
            else applyFunction fuel fnVal args h2
          | (h2, .aborted out) => (h2, out)
      | other => other
    | none => (h, .ok none)
termination_by structural fuel => fuel


/-- evaluator.evalProgram: evaluate the statements in order keeping the last
result; a ReturnValue result ends the program with its unwrapped carried
value, an Error result ends it with the error itself. -/
def evalProgram : Nat → List Node → Nat → Option Obj → Heap → Heap × Outcome
  | 0, _, _, _, h => (h, .noFuel)
  | _+1, [], _, result, h => (h, .ok result)
  | fuel+1, statement :: rest, env, _, h =>
    match Eval fuel (some statement) env h with
    | (h1, .ok res) =>
      match res with
      | some (.returnValue v) => (h1, .ok v)
      | some (.errorObj m) => (h1, .ok (some (.errorObj m)))
      | _ => evalProgram fuel rest env res h1
    | other => other
termination_by structural fuel => fuel


/-- evaluator.evalBlockStatement: like evalProgram, but a ReturnValue result
is propagated unchanged (only the function-call boundary and the top level
unwrap it). -/
def evalBlockStatement : Nat → List Node → Nat → Option Obj → Heap → Heap × Outcome
  | 0, _, _, _, h => (h, .noFuel)
  | _+1, [], _, result, h => (h, .ok result)
  | fuel+1, statement :: rest, env, _, h =>
    match Eval fuel (some statement) env h with
    | (h1, .ok res) =>
      match res with
      | some (.returnValue v) => (h1, .ok (some (.returnValue v)))
      | some (.errorObj m) => (h1, .ok (some (.errorObj m)))
      | _ => evalBlockStatement fuel rest env res h1
    | other => other
termination_by structural fuel => fuel


/-- evaluator.evalIfExpression: the chosen block is evaluated in the same
environment as the conditional itself (no child environment). -/
def evalIfExpression : Nat → Option Node → Option Node → Option Node → Nat → Heap →
    Heap × Outcome
  | 0, _, _, _, _, h => (h, .noFuel)
  | fuel+1, condition, consequence, alternative, env, h =>
    match Eval fuel condition env h with
    | (h1, .ok c) =>
      if isError c then (h1, .ok c)
      else if isTruthy c then Eval fuel consequence env h1
      else
        match alternative with
        | some a => Eval fuel (some a) env h1
        | none => (h1, .ok (some .null))
    | other => other
termination_by structural fuel => fuel


/-- evaluator.evalExpressions: left-to-right evaluation of the argument list,
returning the singleton error slice on the first error. -/
def evalExpressions : Nat → List (Option Node) → Nat → List (Option Obj) → Heap →
    Heap × ExprsResult
  | 0, _, _, _, h => (h, .aborted .noFuel)
  | _+1, [], _, acc, h => (h, .objs acc)
  | fuel+1, e :: rest, env, acc, h =>
    match Eval fuel e env h with
    | (h1, .ok evaluated) =>
      if isError evaluated then (h1, .objs [evaluated])
      else evalExpressions fuel rest env (acc ++ [evaluated]) h1
    | (h1, .panicked m) => (h1, .aborted (.panicked m))
    | (h1, .noFuel) => (h1, .aborted .noFuel)
termination_by structural fuel => fuel


/-- evaluator.applyFunction: only a Function value is applicable (there is no
Builtin case in this evaluator); its body runs in a fresh environment enclosed
by the captured environment, and a ReturnValue result is unwrapped.  The type
assertion message branch calls fn.Type(), which crashes on a nil callee. -/
def applyFunction : Nat → Option Obj → List (Option Obj) → Heap → Heap × Outcome
  | 0, _, _, h => (h, .noFuel)
  | fuel+1, fn, args, h =>
    match fn with
    | some (.function _ parameters body envRef) =>
      match extendFunctionEnv envRef parameters args h with
      | (h1, _, some panicMsg) => (h1, .panicked panicMsg)
      | (h1, extendedEnv, none) =>
        match Eval fuel body extendedEnv h1 with
        | (h2, .ok evaluated) => (h2, .ok (unwrapReturnValue evaluated))
        | other => other
    | some other => (h, .ok (some (newError ("not a function: " ++ objectTypeString other.type))))
    | none => (h, .panicked nilPointerPanic)
termination_by structural fuel => fuel
end

/-! The Pratt parser cluster.  parseExpression, the statement parsers and the
construct parsers call each other through the prefix and infix dispatch
tables; the cluster carries fuel decremented at every call (always sufficient
for the inputs parsed in this development).  The for-loops of parseExpression,
parseBlockStatement, ParseProgram and parseCallArguments are rendered as the
corresponding *Loop functions with their accumulators. -/

mutual

/-- (p *Parser) parseExpression: run the prefix handler of the current token
(recording the no-prefix-parse-function diagnostic when there is none), then
climb with the infix loop. -/
def parseExpression : Nat → Precedence → ParserState → ParserState × Option Node
  | 0, _, p => (p, none)
  | fuel+1, precedence, p =>
    if hasPrefixFn p.currToken.type then
      let (p1, leftExp) := runPrefixFn fuel p.currToken.type p
      parseExpressionLoop fuel precedence leftExp p1
    else
      (noPrefixParseFnError p.currToken.type p, none)

/-- The climbing loop of parseExpression: while the lookahead is not a
semicolon and binds tighter than the minimum, advance and run its infix
handler on the expression built so far. -/
def parseExpressionLoop : Nat → Precedence → Option Node → ParserState →
    ParserState × Option Node
  | 0, _, leftExp, p => (p, leftExp)
  | fuel+1, precedence, leftExp, p =>
    if !peekTokenIs .SEMICOLON p ∧ (peekPrecedence p).val > precedence.val then
      if hasInfixFn p.peekToken.type then
        let tt := p.peekToken.type
        let p1 := nextTokenP p
        let (p2, newLeft) := runInfixFn fuel tt leftExp p1
        parseExpressionLoop fuel precedence newLeft p2
      else (p, leftExp)
    else (p, leftExp)

/-- The prefix dispatch table built in parser.New. -/
def runPrefixFn : Nat → TokenType → ParserState → ParserState × Option Node
  | 0, _, p => (p, none)
  | fuel+1, tt, p =>
    match tt with
    | .IDENTIFIER => (p, some (parseIdentifier p))
    | .INT => parseIntegerLiteral p
    | .BANG => parsePrefixExpression fuel p
    | .MINUS => parsePrefixExpression fuel p
    | .TRUE => (p, some (parseBoolean p))
    | .FALSE => (p, some (parseBoolean p))
    | .LPAREN => parseGroupedExpression fuel p
    | .IF => parseIfExpression fuel p
    | .FUNCTION => parseFunctionLiteral fuel p
    | _ => (p, none)

/-- The infix dispatch table built in parser.New. -/
def runInfixFn : Nat → TokenType → Option Node → ParserState → ParserState × Option Node
  | 0, _, leftExp, p => (p, leftExp)
  | fuel+1, tt, leftExp, p =>
    match tt with
    | .LPAREN => parseCallExpression fuel leftExp p
    | .PLUS | .MINUS | .SLASH | .ASTERISK | .EQ | .NOT_EQ | .LT | .GT =>
      parseInfixExpression fuel leftExp p
    | _ => (p, leftExp)

/-- (p *Parser) parsePrefixExpression -/
def parsePrefixExpression : Nat → ParserState → ParserState × Option Node
  | 0, p => (p, none)
  | fuel+1, p =>
    let tok := p.currToken
    let p1 := nextTokenP p
    let (p2, right) := parseExpression fuel .PREFIXLEVEL p1
    (p2, some (.prefixExpr tok tok.literal right))

/-- (p *Parser) parseInfixExpression -/
def parseInfixExpression : Nat → Option Node → ParserState → ParserState × Option Node
  | 0, leftExp, p => (p, leftExp)
  | fuel+1, leftExp, p =>
    let tok := p.currToken
    let precedence := currPrecedence p
    let p1 := nextTokenP p
    let (p2, right) := parseExpression fuel precedence p1
    (p2, some (.infixExpr tok leftExp tok.literal right))

/-- (p *Parser) parseGroupedExpression -/
def parseGroupedExpression : Nat → ParserState → ParserState × Option Node
  | 0, p => (p, none)
  | fuel+1, p =>
    let p1 := nextTokenP p
    let (p2, exp) := parseExpression fuel .LOWEST p1
    match expectPeek .RPAREN p2 with
    | (true, p3) => (p3, exp)
    | (false, p3) => (p3, none)

/-- (p *Parser) parseIfExpression -/
def parseIfExpression : Nat → ParserState → ParserState × Option Node
  | 0, p => (p, none)
  | fuel+1, p =>
    let tok := p.currToken
    match expectPeek .LPAREN p with
    | (false, p1) => (p1, none)
    | (true, p1) =>
      let p2 := nextTokenP p1
      let (p3, condition) := parseExpression fuel .LOWEST p2
      match expectPeek .RPAREN p3 with
      | (false, p4) => (p4, none)
      | (true, p4) =>
        match expectPeek .LBRACE p4 with
        | (false, p5) => (p5, none)
        | (true, p5) =>
          let (p6, consequence) := parseBlockStatement fuel p5
          if peekTokenIs .ELSE p6 then
            let p7 := nextTokenP p6
            match expectPeek .LBRACE p7 with
            | (false, p8) => (p8, none)
            | (true, p8) =>
              let (p9, alternative) := parseBlockStatement fuel p8
              (p9, some (.ifExpr tok condition (some consequence) (some alternative)))
          else (p6, some (.ifExpr tok condition (some consequence) none))

/-- (p *Parser) parseFunctionLiteral -/
def parseFunctionLiteral : Nat → ParserState → ParserState × Option Node
  | 0, p => (p, none)
  | fuel+1, p =>
    let tok := p.currToken
    match expectPeek .LPAREN p with
    | (false, p1) => (p1, none)
    | (true, p1) =>
      let (p2, parameters) := parseFunctionParameters p1
      match expectPeek .LBRACE p2 with
      | (false, p3) => (p3, none)
      | (true, p3) =>
        let (p4, body) := parseBlockStatement fuel p3
        (p4, some (.funcLit tok parameters (some body)))

/-- (p *Parser) parseBlockStatement: skip the opening brace and collect
statements until a closing brace (the Go loop has no EOF guard; on the
well-formed inputs of this development the brace is always found before the
fuel runs out). -/
def parseBlockStatement : Nat → ParserState → ParserState × Node
  | 0, p => (p, .block p.currToken [])
  | fuel+1, p =>
    let tok := p.currToken
    let p1 := nextTokenP p
    parseBlockLoop fuel tok [] p1

/-- The statement loop of parseBlockStatement. -/
def parseBlockLoop : Nat → Token → List Node → ParserState → ParserState × Node
  | 0, tok, acc, p => (p, .block tok acc)
  | fuel+1, tok, acc, p =>
    if currTokenIs .RBRACE p then (p, .block tok acc)
    else
      let (p1, statement) := parseStatement fuel p
      let acc1 := match statement with
                  | some s => acc ++ [s]
                  | none => acc
      parseBlockLoop fuel tok acc1 (nextTokenP p1)

/-- (p *Parser) parseStatement -/
def parseStatement : Nat → ParserState → ParserState × Option Node
  | 0, p => (p, none)
  | fuel+1, p =>
    match p.currToken.type with
    | .LET => parseLetStatement fuel p
    | .RETURN => parseReturnStatement fuel p
    | _ => parseExpressionStatement fuel p

/-- (p *Parser) parseLetStatement -/
def parseLetStatement : Nat → ParserState → ParserState × Option Node
  | 0, p => (p, none)
  | fuel+1, p =>
    let tok := p.currToken
    match expectPeek .IDENTIFIER p with
    | (false, p1) => (p1, none)
    | (true, p1) =>
      let name : Identifier := ⟨p1.currToken, p1.currToken.literal⟩
      match expectPeek .ASSIGN p1 with
      | (false, p2) => (p2, none)
      | (true, p2) =>
        let p3 := nextTokenP p2
        let (p4, value) := parseExpression fuel .LOWEST p3
        let p5 := if peekTokenIs .SEMICOLON p4 then nextTokenP p4 else p4
        (p5, some (.letStmt tok name value))

/-- (p *Parser) parseReturnStatement -/
def parseReturnStatement : Nat → ParserState → ParserState × Option Node
  | 0, p => (p, none)
  | fuel+1, p =>
    let tok := p.currToken
    let p1 := nextTokenP p
    let (p2, value) := parseExpression fuel .LOWEST p1
    let p3 := if peekTokenIs .SEMICOLON p2 then nextTokenP p2 else p2
    (p3, some (.returnStmt tok value))

/-- (p *Parser) parseExpressionStatement -/
def parseExpressionStatement : Nat → ParserState → ParserState × Option Node
  | 0, p => (p, none)
  | fuel+1, p =>
    let tok := p.currToken
    let (p1, expression) := parseExpression fuel .LOWEST p
    let p2 := if peekTokenIs .SEMICOLON p1 then nextTokenP p1 else p1
    (p2, some (.exprStmt tok expression))

/-- (p *Parser) parseCallExpression -/
def parseCallExpression : Nat → Option Node → ParserState → ParserState × Option Node
  | 0, f, p => (p, f)
  | fuel+1, f, p =>
    let tok := p.currToken
    let (p1, arguments) := parseCallArguments fuel p
    (p1, some (.callExpr tok f arguments))

/-- (p *Parser) parseCallArguments; a failed closing-parenthesis expectation
returns the Go nil slice, modelled as the empty list. -/
def parseCallArguments : Nat → ParserState → ParserState × List (Option Node)
  | 0, p => (p, [])
  | fuel+1, p =>
    if peekTokenIs .RPAREN p then (nextTokenP p, [])
    else
      let p1 := nextTokenP p
      let (p2, first) := parseExpression fuel .LOWEST p1
      let (p3, args) := parseCallArgsLoop fuel [first] p2
      match expectPeek .RPAREN p3 with
      | (true, p4) => (p4, args)
      | (false, p4) => (p4, [])

/-- The comma loop of parseCallArguments. -/
def parseCallArgsLoop : Nat → List (Option Node) → ParserState →
    ParserState × List (Option Node)
  | 0, args, p => (p, args)
  | fuel+1, args, p =>
    if peekTokenIs .COMMA p then
      let p1 := nextTokenP (nextTokenP p)
      let (p2, e) := parseExpression fuel .LOWEST p1
      parseCallArgsLoop fuel (args ++ [e]) p2
    else (p, args)

end

/-- The statement loop of (p *Parser) ParseProgram: parse statements until the
current token is EOF, skipping the nil results of failed statements. -/
def parseProgramLoop : Nat → List Node → ParserState → ParserState × List Node
  | 0, acc, p => (p, acc)
  | fuel+1, acc, p =>
    if currTokenIs .EOF p then (p, acc)
    else
      let (p1, statement) := parseStatement fuel p
      let acc1 := match statement with
                  | some s => acc ++ [s]
                  | none => acc
      parseProgramLoop fuel acc1 (nextTokenP p1)

/-- (p *Parser) ParseProgram -/
def ParseProgram (fuel : Nat) (p : ParserState) : ParserState × Node :=
  let (p1, statements) := parseProgramLoop fuel [] p
  (p1, .program statements)

/-- Lex and parse a source string; returns the program node and the
accumulated parser diagnostics. -/
def parseInput (input : String) : Node × List String :=
  let p0 := Parser.new (tokenize input)
  let (p1, program) := ParseProgram 999 p0
  (program, p1.errors)

/-- The heap at the start of a session: the single persistent top-level
environment created by object.NewEnvironment, with reference 0. -/
def initialHeap : Heap := { envs := [{ store := [], outer := none }], nextFnId := 0 }

/-- The pipeline of the REPL for one line: lex, parse, then Eval the program
against the top-level environment (used below on inputs whose parse produces
no diagnostics). -/
def interpret (input : String) : Heap × Outcome :=
  Eval 999 (some (parseInput input).1) 0 initialHeap

/-- The outcome of interpreting a source string. -/
def interpretOut (input : String) : Outcome := (interpret input).2

/-- Direct lookup of a binding in one environment frame of a heap (no outer
chain), to observe what a program stored. -/
def envGetLocal (h : Heap) (ref : Nat) (name : String) : Option (Option Obj) :=
  match h.envs.get? ref with
  | none => none
  | some e => storeGet e.store name

/-! ## Helper observations used by the claim theorems -/

/-- Whether an outcome is a normal return carrying an error value. -/
def isErrorOutcome : Outcome → Bool
  | .ok o => isError o
  | _ => false

/-- The closure test program of the specification. -/
def closureProgram : String :=
  "let newAdder = fn(x) \x7b fn(y) \x7b x + y \x7d \x7d; let addTwo = newAdder(2); addTwo(3);"

/-- A program whose let value is a conditional whose chosen block executes a
return statement, followed by a return of the bound name. -/
def returnLeakProgram : String := "let x = if (true) \x7b return 5; \x7d; return x;"

/-- A cleanly parsing conditional program, used for the round-trip claim. -/
def ifProgram : String := "if (x) \x7b y \x7d"

/-- Binding parameters positionally panics as soon as the argument index runs
past the end of the argument slice: with a nonempty parameter list and fewer
remaining arguments than parameters, the loop reports the out-of-range panic. -/
theorem bindParams_panics_of_short_args :
    ∀ (params : List Identifier) (args : List (Option Obj)) (idx env : Nat) (h : Heap),
      params ≠ [] → args.length < idx + params.length →
      (bindParams params args idx env h).2 = some indexOutOfRangePanic := by
  intro params
  induction params with
  | nil => intro args idx env h hne _; exact absurd rfl hne
  | cons p ps ih =>
    intro args idx env h _ hlen
    by_cases hidx : idx < args.length
    · have ha : args[idx]? = some args[idx] := List.getElem?_eq_getElem hidx
      have hps : ps ≠ [] := by
        intro hnil
        subst hnil
        simp only [List.length_cons, List.length_nil] at hlen
        omega
      have hlen2 : args.length < (idx + 1) + ps.length := by
        simp only [List.length_cons] at hlen
        omega
      simpa [bindParams, ha] using
        ih args (idx + 1) env (envSet h env p.value args[idx]) hps hlen2
    · have ha : args[idx]? = none := by
        rw [List.getElem?_eq_none]
        omega
      simp [bindParams, ha]

/-! ## Claim theorems -/

/-- C1: evaluating the closure program
let newAdder = fn(x) ... let addTwo = newAdder(2); addTwo(3); in a fresh
top-level environment parses with no diagnostics and yields the integer 5;
in the final heap the environment of the addTwo call (reference 2) has the
environment captured by the returned closure (reference 1, created by the
newAdder call and binding x to 2) as its outer link, not the top-level caller
environment (reference 0), whose own outer link chain is
[none, some 0, some 1]. -/
theorem claim1_closure_application_yields_five :
    (parseInput closureProgram).2 = [] ∧
    interpretOut closureProgram = .ok (some (.integer 5)) ∧
    (interpret closureProgram).1.envs.map Environment.outer = [none, some 0, some 1] ∧
    envGetLocal (interpret closureProgram).1 1 "x" = some (some (.integer 2)) :=
  ⟨rfl, rfl, rfl, rfl⟩

/-- C2: the program -1 + 2 * 3 parses with no diagnostics into the AST
((-1) + (2 * 3)) (multiplication binds tighter than addition and the prefix
minus tighter than both) and evaluates to 5 in any environment against any
heap; (2 + 3) * 4 parses cleanly and evaluates to 20 (grouping parentheses
reset the precedence floor). -/
theorem claim2_operator_precedence (h : Heap) (env : Nat) :
    (parseInput "-1 + 2 * 3").2 = [] ∧
    (parseInput "-1 + 2 * 3").1 =
      Node.program [Node.exprStmt (Token.new .MINUS "-")
        (some (Node.infixExpr (Token.new .PLUS "+")
          (some (Node.prefixExpr (Token.new .MINUS "-") "-"
            (some (Node.intLit (Token.new .INT "1") 1))))
          "+"
          (some (Node.infixExpr (Token.new .ASTERISK "*")
            (some (Node.intLit (Token.new .INT "2") 2))
            "*"
            (some (Node.intLit (Token.new .INT "3") 3))))))] ∧
    Eval 99 (some (parseInput "-1 + 2 * 3").1) env h = (h, .ok (some (.integer 5))) ∧
    (parseInput "(2 + 3) * 4").2 = [] ∧
    Eval 99 (some (parseInput "(2 + 3) * 4").1) env h = (h, .ok (some (.integer 20))) :=
  ⟨rfl, rfl, rfl, rfl, rfl⟩

/-- C3 counterexample: evaluating 1 == true does NOT produce the error value
type mismatch: INTEGER == BOOLEAN claimed by the specification; it parses
cleanly and returns the false boolean (the == clause of evalInfixExpression
precedes the type-mismatch clause and compares the two operands by interface
identity, and an integer object is never identical to the true singleton). -/
theorem claim3_counterexample_int_eq_bool_not_error :
    (parseInput "1 == true;").2 = [] ∧
    interpretOut "1 == true;" = .ok (some (.boolean false)) ∧
    isErrorOutcome (interpretOut "1 == true;") = false :=
  ⟨rfl, rfl, rfl⟩

/-- C3 (amended): 1 == 1 evaluates to the true boolean by integer value
comparison, true == true evaluates to the true boolean by singleton identity,
and 1 == true evaluates to the false boolean: the identity comparison of the
== branch fires before the type-mismatch branch can be reached, so a
mixed-type equality yields false rather than an error value. -/
theorem claim3_equality_semantics :
    interpretOut "1 == 1;" = .ok (some (.boolean true)) ∧
    interpretOut "true == true;" = .ok (some (.boolean true)) ∧
    interpretOut "1 == true;" = .ok (some (.boolean false)) :=
  ⟨rfl, rfl, rfl⟩

/-- C4: the builtins table is unreachable: evalIdentifier resolves names only
through the environment chain, so the bare identifier len and the call len(1)
in a fresh environment both evaluate to the error value
identifier not found: len instead of reaching the len builtin, and
len("four") does not even parse (no prefix parse function is registered for
the STRING token type). -/
theorem claim4_len_is_identifier_not_found :
    (parseInput "len(1);").2 = [] ∧
    interpretOut "len(1);" = .ok (some (.errorObj "identifier not found: len")) ∧
    interpretOut "len" = .ok (some (.errorObj "identifier not found: len")) ∧
    (parseInput "len(\"four\")").2 = ["No prefix parse function for STRING"] :=
  ⟨rfl, rfl, rfl, rfl⟩

/-- C5 counterexample: 1 / 0 parses with no diagnostics and its evaluation
does not return normally with an error value as the claim states: the
division branch of evalIntegerInfixExpression is not guarded and the Go
runtime panics with integer divide by zero. -/
theorem claim5_counterexample_division_crashes :
    (parseInput "1 / 0").2 = [] ∧
    interpretOut "1 / 0" = .panicked divideByZeroPanic ∧
    Outcome.isOk (interpretOut "1 / 0") = false :=
  ⟨rfl, rfl, rfl⟩

/-- C5 (amended): for every pair of integer runtime values l and r with r
equal to zero, evaluating the infix expression l / r crashes the interpreter
with the Go integer-divide-by-zero runtime panic instead of returning an
error value: the division branch of integer infix evaluation has no
zero-divisor guard. -/
theorem claim5_division_by_zero_panics (l r : Int) (hr : r = 0) :
    evalInfixExpression "/" (some (.integer l)) (some (.integer r)) =
      .panicked divideByZeroPanic := by
  subst hr
  rfl

/-- C5 witness: the division 7 / 0 panics. -/
theorem claim5_division_by_zero_panics_witness :
    evalInfixExpression "/" (some (Obj.integer 7)) (some (Obj.integer 0)) =
      .panicked divideByZeroPanic :=
  claim5_division_by_zero_panics 7 0 rfl

/-- C6 counterexample: applying a closure to an argument list whose length
differs from the parameter count does not return the error value
wrong number of arguments claimed by the specification: with fewer arguments
than parameters, fn(x) { x }() crashes with the Go index-out-of-range panic
while binding parameters positionally, and with more arguments than
parameters, fn(x) { x }(1, 2) succeeds normally, silently ignoring the extra
argument and returning 1. -/
theorem claim6_counterexample_arity_mismatch :
    (parseInput "fn(x) \x7b x \x7d();").2 = [] ∧
    interpretOut "fn(x) \x7b x \x7d();" = .panicked indexOutOfRangePanic ∧
    Outcome.isOk (interpretOut "fn(x) \x7b x \x7d();") = false ∧
    (parseInput "fn(x) \x7b x \x7d(1, 2);").2 = [] ∧
    interpretOut "fn(x) \x7b x \x7d(1, 2);" = .ok (some (.integer 1)) ∧
    isErrorOutcome (interpretOut "fn(x) \x7b x \x7d(1, 2);") = false :=
  ⟨rfl, rfl, rfl, rfl, rfl, rfl⟩

/-- C6 (amended): for every closure applied to strictly fewer arguments than
it has parameters, applyFunction crashes with the Go index-out-of-range
runtime panic while binding parameters positionally (there is no argument
count check); a surplus of arguments is silently ignored, as the evaluation
of fn(x) { x }(1, 2) to 1 shows. -/
theorem claim6_too_few_arguments_panics
    (fuel allocId envRef : Nat) (params : List Identifier) (body : Option Node)
    (args : List (Option Obj)) (h : Heap)
    (hlt : args.length < params.length) :
    (applyFunction (fuel + 1) (some (.function allocId params body envRef)) args h).2 =
      .panicked indexOutOfRangePanic ∧
    interpretOut "fn(x) \x7b x \x7d(1, 2);" = .ok (some (.integer 1)) := by
  constructor
  · have hne : params ≠ [] := by
      intro hnil
      subst hnil
      simp only [List.length_nil] at hlt
      omega
    have hb := bindParams_panics_of_short_args params args 0 h.envs.length
      { h with envs := h.envs ++ [{ store := [], outer := some envRef }] } hne (by omega)
    rcases hbp : bindParams params args 0 h.envs.length
        { h with envs := h.envs ++ [{ store := [], outer := some envRef }] } with ⟨h2, failure⟩
    rw [hbp] at hb
    simp only at hb
    subst hb
    simp [applyFunction, extendFunctionEnv, NewEnclosedEnvironment, hbp]
  · rfl

/-- C6 witness: a one-parameter closure applied to the empty argument list
panics with the index-out-of-range message. -/
theorem claim6_too_few_arguments_panics_witness :
    (applyFunction 5 (some (Obj.function 0 [⟨Token.new .IDENTIFIER "x", "x"⟩] none 0))
        [] initialHeap).2 = .panicked indexOutOfRangePanic ∧
    interpretOut "fn(x) \x7b x \x7d(1, 2);" = .ok (some (.integer 1)) :=
  claim6_too_few_arguments_panics 4 0 0 [⟨Token.new .IDENTIFIER "x", "x"⟩] none []
    initialHeap (by decide)

/-- C7: a return-signal value does leak: in
let x = if (true) { return 5; }; return x; (which parses with no
diagnostics), the let statement stores the return-signal produced by the
conditional block under x in the top-level environment, and the final result
of the whole program is itself a return-signal wrapping 5 (the top level
unwraps only the outer of the two nested wrappers). -/
theorem claim7_return_signal_leaks :
    (parseInput returnLeakProgram).2 = [] ∧
    interpretOut returnLeakProgram = .ok (some (.returnValue (some (.integer 5)))) ∧
    envGetLocal (interpret returnLeakProgram).1 0 "x" =
      some (some (.returnValue (some (.integer 5)))) :=
  ⟨rfl, rfl, rfl⟩

/-- C8: parsing let = 5; let y 10; records three diagnostics: the failed
identifier expectation of the first let, the missing prefix parse function
for the stray assignment token, and the failed assignment expectation of the
second let; in particular the two expectation diagnostics, one per malformed
let statement, are distinct, so at least two distinct diagnostics are
accumulated rather than only the first. -/
theorem claim8_parser_accumulates_diagnostics :
    (parseInput "let = 5; let y 10;").2 =
      ["Expected next token to be IDENTIFIER, got ASSIGN",
       "No prefix parse function for ASSIGN",
       "Expected next token to be ASSIGN, got INT"] ∧
    ("Expected next token to be IDENTIFIER, got ASSIGN" : String) ≠
      "Expected next token to be ASSIGN, got INT" :=
  ⟨rfl, by decide⟩

/-- C9 counterexample: the print/parse round-trip fails: if (x) { y } parses
with no diagnostics, but re-parsing its printed form produces diagnostics and
a program with a different number of top-level statements. -/
theorem claim9_counterexample_roundtrip_fails :
    (parseInput ifProgram).2 = [] ∧
    (parseInput (nodeString 99 (some (parseInput ifProgram).1))).2 ≠ [] ∧
    Node.numStatements (parseInput (nodeString 99 (some (parseInput ifProgram).1))).1 ≠
      Node.numStatements (parseInput ifProgram).1 :=
  ⟨rfl, by decide, by decide⟩

/-- C9 (amended): the printed form of a conditional is not re-parseable:
IfExpression.String omits the parentheses around the condition that
parseIfExpression requires, so the cleanly parsed program if (x) { y } prints
as if x {y}, whose re-parse records the failed LPAREN expectation (plus two
missing-prefix-function diagnostics for the braces) and yields five top-level
statements instead of one. -/
theorem claim9_conditional_print_drops_parens :
    nodeString 99 (some (parseInput ifProgram).1) = "if x \x7by\x7d" ∧
    (parseInput "if x \x7by\x7d").2 =
      ["Expected next token to be LPAREN, got IDENTIFIER",
       "No prefix parse function for LBRACE",
       "No prefix parse function for RBRACE"] ∧
    Node.numStatements (parseInput "if x \x7by\x7d").1 = 5 ∧
    Node.numStatements (parseInput ifProgram).1 = 1 :=
  ⟨rfl, rfl, rfl, rfl⟩

/-- C10: every parameter position occupied by a non-identifier token records
no diagnostic: parseFunctionParameters turns the token found in a parameter
position into a parameter identifier named by its literal text and leaves the
error list untouched, both in first position (an arbitrary non-RPAREN token)
and following a comma (an arbitrary token, converted by the comma loop);
concretely, fn(5) { 5 } and fn(5, 6) { 5 } parse with empty error lists into
function literals whose parameters are named 5 (and 6). -/
theorem claim10_parameter_position_unchecked
    (tok tok2 curr : Token) (rest : List Token) (errs : List String)
    (hne : tok.type ≠ .RPAREN) :
    parseFunctionParameters ⟨Token.new .RPAREN ")" :: rest, curr, tok, errs⟩ =
      (⟨rest.tail, Token.new .RPAREN ")", rest.headD eofToken, errs⟩,
       [⟨tok, tok.literal⟩]) ∧
    parseFunctionParameters
        ⟨Token.new .COMMA "," :: tok2 :: Token.new .RPAREN ")" :: rest, curr, tok, errs⟩ =
      (⟨rest.tail, Token.new .RPAREN ")", rest.headD eofToken, errs⟩,
       [⟨tok, tok.literal⟩, ⟨tok2, tok2.literal⟩]) ∧
    (parseInput "fn(5) \x7b 5 \x7d").2 = [] ∧
    (parseInput "fn(5) \x7b 5 \x7d").1 =
      Node.program [Node.exprStmt (Token.new .FUNCTION "fn")
        (some (Node.funcLit (Token.new .FUNCTION "fn")
          [⟨Token.new .INT "5", "5"⟩]
          (some (Node.block (Token.new .LBRACE "\x7b")
            [Node.exprStmt (Token.new .INT "5")
              (some (Node.intLit (Token.new .INT "5") 5))]))))] ∧
    (parseInput "fn(5, 6) \x7b 5 \x7d").2 = [] ∧
    (parseInput "fn(5, 6) \x7b 5 \x7d").1 =
      Node.program [Node.exprStmt (Token.new .FUNCTION "fn")
        (some (Node.funcLit (Token.new .FUNCTION "fn")
          [⟨Token.new .INT "5", "5"⟩, ⟨Token.new .INT "6", "6"⟩]
          (some (Node.block (Token.new .LBRACE "\x7b")
            [Node.exprStmt (Token.new .INT "5")
              (some (Node.intLit (Token.new .INT "5") 5))]))))] := by
  refine ⟨?_, ?_, rfl, rfl, rfl, rfl⟩
  · have hpeek : peekTokenIs .RPAREN
        ⟨Token.new .RPAREN ")" :: rest, curr, tok, errs⟩ = false := by
      simp [peekTokenIs, hne]
    rw [parseFunctionParameters, hpeek]
    simp only [Bool.false_eq_true, if_false, nextTokenP, List.headD_cons, List.tail_cons,
      List.length_cons]
    rw [show rest.length + 1 + 2 = (rest.length + 2) + 1 from rfl, parseParamsLoop]
    simp [peekTokenIs, expectPeek, nextTokenP, peekError, Token.new, List.headD]
  · have hpeek : peekTokenIs .RPAREN
        ⟨Token.new .COMMA "," :: tok2 :: Token.new .RPAREN ")" :: rest, curr, tok, errs⟩ =
          false := by
      simp [peekTokenIs, hne]
    rw [parseFunctionParameters, hpeek]
    simp only [Bool.false_eq_true, if_false, nextTokenP, List.headD_cons, List.tail_cons,
      List.length_cons]
    rw [show rest.length + 1 + 1 + 1 + 2 = (rest.length + 4) + 1 from rfl, parseParamsLoop]
    simp only [peekTokenIs, Token.new, nextTokenP, List.headD_cons, List.tail_cons]
    rw [show rest.length + 4 = (rest.length + 3) + 1 from rfl, parseParamsLoop]
    simp [peekTokenIs, expectPeek, nextTokenP, peekError, Token.new, List.headD]

/-- C10 witness: an INT token in first parameter position and another INT
token following a comma are both accepted as parameters named by their
literals, with no diagnostic recorded. -/
theorem claim10_parameter_position_unchecked_witness :
    parseFunctionParameters ⟨[Token.new .RPAREN ")", Token.new .EOF ""],
        Token.new .LPAREN "(", Token.new .INT "5", []⟩ =
      (⟨[], Token.new .RPAREN ")", Token.new .EOF "", []⟩,
       [⟨Token.new .INT "5", "5"⟩]) ∧
    parseFunctionParameters ⟨[Token.new .COMMA ",", Token.new .INT "6",
        Token.new .RPAREN ")", Token.new .EOF ""],
        Token.new .LPAREN "(", Token.new .INT "5", []⟩ =
      (⟨[], Token.new .RPAREN ")", Token.new .EOF "", []⟩,
       [⟨Token.new .INT "5", "5"⟩, ⟨Token.new .INT "6", "6"⟩]) ∧
    (parseInput "fn(5) \x7b 5 \x7d").2 = [] ∧
    (parseInput "fn(5) \x7b 5 \x7d").1 =
      Node.program [Node.exprStmt (Token.new .FUNCTION "fn")
        (some (Node.funcLit (Token.new .FUNCTION "fn")
          [⟨Token.new .INT "5", "5"⟩]
          (some (Node.block (Token.new .LBRACE "\x7b")
            [Node.exprStmt (Token.new .INT "5")
              (some (Node.intLit (Token.new .INT "5") 5))]))))] ∧
    (parseInput "fn(5, 6) \x7b 5 \x7d").2 = [] ∧
    (parseInput "fn(5, 6) \x7b 5 \x7d").1 =
      Node.program [Node.exprStmt (Token.new .FUNCTION "fn")
        (some (Node.funcLit (Token.new .FUNCTION "fn")
          [⟨Token.new .INT "5", "5"⟩, ⟨Token.new .INT "6", "6"⟩]
          (some (Node.block (Token.new .LBRACE "\x7b")
            [Node.exprStmt (Token.new .INT "5")
              (some (Node.intLit (Token.new .INT "5") 5))]))))] :=
  claim10_parameter_position_unchecked (Token.new .INT "5") (Token.new .INT "6")
    (Token.new .LPAREN "(") [Token.new .EOF ""] [] (by decide)
